import Mathlib

/-!
Verification of the remote-commands-handler core: a shallow embedding of
`app/modbus_client.py` and `app/mqtt_reader.py`, together with the
collaborators those modules use (configuration lookups, the payload codec,
the error handler and the command-message validate/transform step, which
are modelled from the design document where their source is not part of
the embedded subset).

Conventions of the embedding:
* Python exceptions become an explicit `Except PyExc` result channel.
* Side effects (field-bus writes, error-handler publications, callback
  dispatches) become explicit lists accumulated in outcome records, in
  the order the code performs them.
* Python numbers are exact: ints are `Int`, floats are the dyadic
  rational `m / 2 ^ e` (every finite IEEE-754 double is such a value).
* The field-bus transport is an oracle `fail : ModbusOp → Bool` deciding
  which attempted write raises `ModbusException`.
-/

set_option maxRecDepth 8000

/-- Error categories of the error handler.  Modelled from the spec:
`app/error_handler.py` is not in the embedded subset; the spec's §4.5/§7
taxonomy is {InvalidMessage, UnknownCommand, Transport, Unhandled}. -/
inductive Category
  | invalidMessage
  | unknownCommand
  | transport
  | unhandled
deriving DecidableEq

/-- The Python exceptions that cross the boundaries of the embedded code:
`InvalidMessageError`, `UnknownCommandError` (carrying the command name),
`ModbusClientError`, and a catch-all for every other exception class
(carrying a descriptive string). -/
inductive PyExc
  | invalidMessageError
  | unknownCommandError (name : String)
  | modbusClientError
  | otherError (msg : String)
deriving DecidableEq

/-- A dynamically typed inbound Python value: bool, int, or float.  A
float is represented exactly as the dyadic rational `m / 2 ^ e`. -/
inductive PyValue
  | bool (b : Bool)
  | int (i : Int)
  | float (m : Int) (e : Nat)
deriving DecidableEq

/-- Python truthiness `bool(value)` for the inbound value types: `False`
and numeric zero are falsy, everything else truthy. -/
def PyValue.toBool : PyValue → Bool
  | .bool b => b
  | .int i => decide (i ≠ 0)
  | .float m _ => decide (m ≠ 0)

/-- The value viewed as an integer, when it is exactly one: bools are
0/1, ints are themselves, floats only when the dyadic value is integral. -/
def PyValue.asInt : PyValue → Option Int
  | .bool b => some (if b then 1 else 0)
  | .int i => some i
  | .float m e => if m % ((2 : Int) ^ e) = 0 then some (m / (2 : Int) ^ e) else none

/-- The value as a dyadic rational `(numerator, power-of-two exponent)`. -/
def PyValue.dyadic : PyValue → Int × Nat
  | .bool b => (if b then 1 else 0, 0)
  | .int i => (i, 0)
  | .float m e => (m, e)

/-- Register data types.  Modelled from the spec: §3 lists
{int16, uint16, int32, uint32, float32}. -/
inductive DataType
  | int16
  | uint16
  | int32
  | uint32
  | float32
deriving DecidableEq

/-- Byte order inside each 16-bit word.  Modelled from the spec (§3). -/
inductive ByteOrder
  | big
  | little
deriving DecidableEq

/-- Word order across multi-word values.  Modelled from the spec (§3). -/
inductive WordOrder
  | natural
  | swapped
deriving DecidableEq

/-- Memory order of a register target: independent intra-word byte order
and inter-word word order.  Modelled from the spec (§3). -/
structure MemoryOrder where
  byte_order : ByteOrder
  word_order : WordOrder
deriving DecidableEq

/-- A coil target.  Modelled from the spec: `Coil{name, baseAddress}`
(`app/configuration.py` is not in the embedded subset; the source indexes
`address[0]`, i.e. the base address). -/
structure Coil where
  name : String
  address : Nat
deriving DecidableEq

/-- A holding-register target:
`Register{name, baseAddress, dataType, memoryOrder}`.  Modelled from the
spec, with the source's field names `data_type` and `memory_order`. -/
structure HoldingRegister where
  name : String
  address : Nat
  data_type : DataType
  memory_order : MemoryOrder
deriving DecidableEq

/-- The device map part of the configuration.  Modelled from the spec:
an immutable mapping of logical names to coil / register targets (the
connection settings play no role in the embedded logic). -/
structure Configuration where
  coils : List Coil
  holding_registers : List HoldingRegister
deriving DecidableEq

/-- `Configuration.get_coil`: exact-match lookup of a coil target. -/
def Configuration.get_coil (cfg : Configuration) (name : String) : Option Coil :=
  cfg.coils.find? (fun c => c.name = name)

/-- `Configuration.get_holding_register`: exact-match lookup of a
holding-register target. -/
def Configuration.get_holding_register (cfg : Configuration) (name : String) :
    Option HoldingRegister :=
  cfg.holding_registers.find? (fun r => r.name = name)

/-- Fuel-driven floor of log₂ (the fuel only forces structural
termination; it is always called with fuel exceeding the bit length). -/
def log2fuel : Nat → Nat → Nat
  | 0, _ => 0
  | fuel + 1, n => if n ≥ 2 then log2fuel fuel (n / 2) + 1 else 0

/-- Modelled from the spec: the IEEE-754 single-precision bit pattern of
the dyadic rational `m / 2 ^ e` (§4.3 step 1 for `float32`).  Defined on
the exactly representable finite values; any other value is rejected as
an encoding failure (the spec's codec contract only promises success for
values that fit the declared width). -/
def float32Bits (m : Int) (e : Nat) : Option Nat :=
  if m = 0 then some 0 else
  let sign : Nat := if m < 0 then 1 else 0
  let n := m.natAbs
  let k := log2fuel 600 (n * 2 ^ 149 / 2 ^ e)
  if 23 ≤ k then
    if k ≤ 276 then
      let num := n * 2 ^ 172
      let den := 2 ^ (e + k)
      if num % den = 0 then
        let mantissa := num / den
        if 2 ^ 23 ≤ mantissa ∧ mantissa < 2 ^ 24 then
          some (sign * 2 ^ 31 + (k - 22) * 2 ^ 23 + (mantissa - 2 ^ 23))
        else none
      else none
    else none
  else
    let num := n * 2 ^ 149
    if num % 2 ^ e = 0 then
      let frac := num / 2 ^ e
      if 0 < frac ∧ frac < 2 ^ 23 then some (sign * 2 ^ 31 + frac) else none
    else none

/-- The `width` least-significant bytes of `x`, least significant first. -/
def bytesLE : Nat → Nat → List Nat
  | 0, _ => []
  | width + 1, x => x % 256 :: bytesLE width (x / 256)

/-- The `width`-byte big-endian representation of `x` (§4.3 step 2's
address order: most significant first). -/
def bytesBE (width x : Nat) : List Nat :=
  (bytesLE width x).reverse

/-- Pair consecutive bytes into 16-bit words, first byte most
significant (§4.3 step 2).  Widths are always even, so the odd case is
unreachable. -/
def toWords : List Nat → List Nat
  | b0 :: b1 :: rest => (b0 * 256 + b1) :: toWords rest
  | _ => []

/-- Swap the two bytes of one 16-bit word (§4.3 step 3). -/
def swapBytes (w : Nat) : Nat :=
  w % 256 * 256 + w / 256

/-- The inclusive-exclusive integer range of an integral data type;
`none` for `float32`. -/
def DataType.intRange : DataType → Option (Int × Int)
  | .int16 => some (-(2 ^ 15), 2 ^ 15)
  | .uint16 => some (0, 2 ^ 16)
  | .int32 => some (-(2 ^ 31), 2 ^ 31)
  | .uint32 => some (0, 2 ^ 32)
  | .float32 => none

/-- Encoded byte width of a data type. -/
def DataType.byteWidth : DataType → Nat
  | .int16 => 2
  | .uint16 => 2
  | .int32 => 4
  | .uint32 => 4
  | .float32 => 4

/-- Modelled from the spec: §4.3 step 1 — the natural fixed-width
representation of `v` for data type `dt`, as (byte width, unsigned
value), using two's complement for integral types (after the range
check) and IEEE-754 single precision for `float32`; `none` is the
codec's encoding failure. -/
def natRepr (dt : DataType) (v : PyValue) : Option (Nat × Nat) :=
  match dt.intRange with
  | some (lo, hi) =>
    v.asInt.bind fun i =>
      if lo ≤ i ∧ i < hi then
        some (dt.byteWidth, (i % ((2 : Int) ^ (8 * dt.byteWidth))).toNat)
      else none
  | none =>
    (float32Bits v.dyadic.1 v.dyadic.2).map fun bits => (4, bits)

/-- Modelled from the spec: the payload codec of §4.3
(`app/payload_builder.py` is not in the embedded subset).  The four-step
algorithm: fixed-width representation, split into big-endian words, swap
bytes within each word for little-endian byte order, reverse the word
sequence for swapped word order. -/
def encode (dt : DataType) (mo : MemoryOrder) (v : PyValue) : Option (List Nat) :=
  (natRepr dt v).map fun wx =>
    let words := toWords (bytesBE wx.1 wx.2)
    let words := if mo.byte_order = ByteOrder.little then words.map swapBytes else words
    if mo.word_order = WordOrder.swapped then words.reverse else words

/-- `_build_register_payload` of `app/modbus_client.py`: run the payload
codec with the register's declared data type and memory order. -/
def build_register_payload (reg : HoldingRegister) (v : PyValue) : Option (List Nat) :=
  encode reg.data_type reg.memory_order v

/-- One attempted field-bus write operation, with the arguments the
source passes to the transport client. -/
inductive ModbusOp
  | writeCoil (address : Nat) (value : Bool)
  | writeCoils (address : Nat) (value : List Bool)
  | writeRegisters (address : Nat) (payload : List Nat)
deriving DecidableEq

deriving instance DecidableEq for Except

/-- Outcome of one `ModbusClient` method call: the returned value or the
raised exception, the transport writes attempted (in order), and the
error-handler publications made (in order, by category). -/
structure WriteOutcome (α : Type) where
  result : Except PyExc α
  ops : List ModbusOp
  published : List Category
deriving DecidableEq

/-- `ModbusClient.write_coils`: look up the coil; if absent return 0; if
present attempt one multi-coil transport write at the base address and
return the length of the boolean list, or on `ModbusException` publish
the failure and raise `ModbusClientError`. -/
def write_coils (cfg : Configuration) (fail : ModbusOp → Bool) (name : String)
    (value : List Bool) : WriteOutcome Nat :=
  match cfg.get_coil name with
  | some coil =>
    let op := ModbusOp.writeCoils coil.address value
    if fail op then
      { result := .error .modbusClientError, ops := [op], published := [.transport] }
    else
      { result := .ok value.length, ops := [op], published := [] }
  | none => { result := .ok 0, ops := [], published := [] }

/-- `ModbusClient.write_coil`: look up the coil; if absent return 0; if
present attempt one single-coil transport write at the base address and
return 1, or on `ModbusException` publish the failure and raise
`ModbusClientError`. -/
def write_coil (cfg : Configuration) (fail : ModbusOp → Bool) (name : String)
    (value : Bool) : WriteOutcome Nat :=
  match cfg.get_coil name with
  | some coil =>
    let op := ModbusOp.writeCoil coil.address value
    if fail op then
      { result := .error .modbusClientError, ops := [op], published := [.transport] }
    else
      { result := .ok 1, ops := [op], published := [] }
  | none => { result := .ok 0, ops := [], published := [] }

/-- `ModbusClient.write_register`: look up the holding register; if
absent return 0; if present build the payload (on a build failure
publish and raise `InvalidMessageError`), then attempt one
multi-register transport write of the whole word sequence at the base
address and return 1, or on `ModbusException` publish the failure and
raise `ModbusClientError`. -/
def write_register (cfg : Configuration) (fail : ModbusOp → Bool) (name : String)
    (value : PyValue) : WriteOutcome Nat :=
  match cfg.get_holding_register name with
  | some reg =>
    match build_register_payload reg value with
    | none =>
      { result := .error .invalidMessageError, ops := [], published := [.invalidMessage] }
    | some payload =>
      let op := ModbusOp.writeRegisters reg.address payload
      if fail op then
        { result := .error .modbusClientError, ops := [op], published := [.transport] }
      else
        { result := .ok 1, ops := [op], published := [] }
  | none => { result := .ok 0, ops := [], published := [] }

/-- `ModbusClient.write_command`: start with `sent = 0`; if a coil is
configured under the name, add the count of `write_coil` with the value
coerced by Python truthiness; if a holding register is configured, add
the count of `write_register`; exceptions from either call propagate.
If `sent` is still 0, publish an `UnknownCommandError` and raise it.
The Python function has no return statement, so a non-raising run
returns `None` (here `Option.none`). -/
def write_command (cfg : Configuration) (fail : ModbusOp → Bool) (name : String)
    (value : PyValue) : WriteOutcome (Option Nat) :=
  let coilStep : WriteOutcome Nat :=
    if (cfg.get_coil name).isSome then write_coil cfg fail name value.toBool
    else { result := .ok 0, ops := [], published := [] }
  match coilStep.result with
  | .error e => { result := .error e, ops := coilStep.ops, published := coilStep.published }
  | .ok sentCoil =>
    let regStep : WriteOutcome Nat :=
      if (cfg.get_holding_register name).isSome then write_register cfg fail name value
      else { result := .ok 0, ops := [], published := [] }
    match regStep.result with
    | .error e =>
      { result := .error e, ops := coilStep.ops ++ regStep.ops,
        published := coilStep.published ++ regStep.published }
    | .ok sentReg =>
      if sentCoil + sentReg = 0 then
        { result := .error (.unknownCommandError name), ops := coilStep.ops ++ regStep.ops,
          published := coilStep.published ++ regStep.published ++ [.unknownCommand] }
      else
        { result := .ok none, ops := coilStep.ops ++ regStep.ops,
          published := coilStep.published ++ regStep.published }

/-- One inbound command message: the `action` name and the `value`, as
built from one item of the decoded batch (`app/message.py`'s
`CommandMessage` holds the same data plus the configuration). -/
structure CommandMessage where
  action : String
  value : PyValue
deriving DecidableEq

/-- Modelled from the spec: `CommandMessage.validate` (§4.2) fails with
`UnknownCommandError` exactly when the action matches neither a coil nor
a holding-register name in the configuration. -/
def validate (cfg : Configuration) (m : CommandMessage) : Option PyExc :=
  if (cfg.get_coil m.action).isSome ∨ (cfg.get_holding_register m.action).isSome then none
  else some (.unknownCommandError m.action)

/-- Modelled from the spec: `CommandMessage.transform` (§4.2) coerces
the raw value according to the resolved target's kind — for a register
target a numeric value checked against the declared data type (failing
with `InvalidMessageError` when it cannot be represented), for a
coil-only target a boolean via truthiness (never failing). -/
def transform (cfg : Configuration) (m : CommandMessage) : Except PyExc CommandMessage :=
  match cfg.get_holding_register m.action with
  | some reg =>
    match m.value.asInt, reg.data_type.intRange with
    | some i, some (lo, hi) =>
      if lo ≤ i ∧ i < hi then .ok { m with value := .int i } else .error .invalidMessageError
    | none, some _ => .error .invalidMessageError
    | _, none =>
      if (float32Bits m.value.dyadic.1 m.value.dyadic.2).isSome then .ok m
      else .error .invalidMessageError
  | none => .ok { m with value := .bool m.value.toBool }

/-- Validation followed by transform, as the per-item body of the batch
loop performs them. -/
def validate_transform (cfg : Configuration) (m : CommandMessage) :
    Except PyExc CommandMessage :=
  match validate cfg m with
  | some e => .error e
  | none => transform cfg m

/-- The batch loop of `MqttReader._on_message`: validate and transform
each item in order, accumulating the validated objects; stop at the
first failure.  Returns the list of actions examined (in order) and
either the fully validated batch or the first exception. -/
def processItems (cfg : Configuration) :
    List CommandMessage → List String × Except PyExc (List CommandMessage)
  | [] => ([], .ok [])
  | m :: rest =>
    match validate_transform cfg m with
    | .error e => ([m.action], .error e)
    | .ok m' =>
      let r := processItems cfg rest
      (m.action :: r.1,
       match r.2 with
       | .error e => .error e
       | .ok ms => .ok (m' :: ms))

/-- A registered message callback, as an oracle: `none` means the call
returns normally, `some e` means it raises `e`. -/
def Callback : Type :=
  CommandMessage → Option PyExc

/-- Deliver one message to each callback in order (inner loop of the
dispatch phase); stop at the first callback that raises.  Returns the
calls made, as (message, callback index) pairs, and the exception if
one was raised. -/
def dispatchOne (m : CommandMessage) :
    List Callback → Nat → List (CommandMessage × Nat) × Option PyExc
  | [], _ => ([], none)
  | cb :: rest, i =>
    match cb m with
    | some e => ([(m, i)], some e)
    | none =>
      let r := dispatchOne m rest (i + 1)
      ((m, i) :: r.1, r.2)

/-- The dispatch phase of `MqttReader._on_message`: deliver each
validated message to every callback, message-major, stopping at the
first exception (which propagates to the outer handler). -/
def dispatchAll (cbs : List Callback) :
    List CommandMessage → List (CommandMessage × Nat) × Option PyExc
  | [] => ([], none)
  | m :: ms =>
    let r := dispatchOne m cbs 0
    match r.2 with
    | some e => (r.1, some e)
    | none =>
      let r2 := dispatchAll cbs ms
      (r.1 ++ r2.1, r2.2)

/-- Observable state of one `_on_message` invocation: error-handler
publications, callback deliveries, and the actions examined by the
batch loop, each in order. -/
structure MsgState where
  published : List Category
  dispatched : List (CommandMessage × Nat)
  examined : List String
deriving DecidableEq

/-- Modelled from the spec: the outcome of decoding the raw payload and
parsing it with `CommandMessageList.read` (`app/message.py` is not in
the embedded subset) — a well-formed batch of items, an
`InvalidMessageError` for a payload that fails to parse as structured
data, or any other exception (e.g. a decode failure). -/
inductive InboundParse
  | ok (items : List CommandMessage)
  | invalid
  | failure (msg : String)

/-- Everything inside the outer `try` of `MqttReader._on_message`: the
inner `try` parses, validates and transforms the batch, its two
`except` clauses publish `INVALID_MESSAGE` / `UNKNOWN_COMMAND` and
return; a well-formed batch is then dispatched to the callbacks.  The
second component is the exception escaping the outer `try`, if any. -/
def inner_body (cfg : Configuration) (cbs : List Callback) (input : InboundParse) :
    MsgState × Option PyExc :=
  match input with
  | .invalid => ({ published := [.invalidMessage], dispatched := [], examined := [] }, none)
  | .failure msg => ({ published := [], dispatched := [], examined := [] },
      some (.otherError msg))
  | .ok items =>
    match (processItems cfg items).2 with
    | .error .invalidMessageError =>
      ({ published := [.invalidMessage], dispatched := [],
         examined := (processItems cfg items).1 }, none)
    | .error (.unknownCommandError _) =>
      ({ published := [.unknownCommand], dispatched := [],
         examined := (processItems cfg items).1 }, none)
    | .error e =>
      ({ published := [], dispatched := [], examined := (processItems cfg items).1 }, some e)
    | .ok msgs =>
      let r := dispatchAll cbs msgs
      ({ published := [], dispatched := r.1, examined := (processItems cfg items).1 }, r.2)

/-- `MqttReader._on_message`'s handler: run the body; the outer
`except Exception` absorbs any escaping exception and publishes it as
`UNHANDLED` (the error handler itself never raises, per §4.5).  The
second component is what the handler lets propagate — always `none`. -/
def on_message (cfg : Configuration) (cbs : List Callback) (input : InboundParse) :
    MsgState × Option PyExc :=
  let r := inner_body cfg cbs input
  match r.2 with
  | none => (r.1, none)
  | some _ => ({ r.1 with published := r.1.published ++ [Category.unhandled] }, none)

/-- `write_coil` with no coil configured: count 0, no transport write,
no publication. -/
theorem write_coil_of_none (cfg : Configuration) (fail : ModbusOp → Bool) (name : String)
    (value : Bool) (h : cfg.get_coil name = none) :
    write_coil cfg fail name value = { result := .ok 0, ops := [], published := [] } := by
  simp [write_coil, h]

/-- `write_coil` with a configured coil and a healthy transport. -/
theorem write_coil_of_some (cfg : Configuration) (fail : ModbusOp → Bool) (name : String)
    (value : Bool) (c : Coil) (h : cfg.get_coil name = some c)
    (hf : fail (.writeCoil c.address value) = false) :
    write_coil cfg fail name value =
      { result := .ok 1, ops := [ModbusOp.writeCoil c.address value], published := [] } := by
  simp [write_coil, h, hf]

/-- `write_coil` with a configured coil and a failing transport. -/
theorem write_coil_of_some_fail (cfg : Configuration) (fail : ModbusOp → Bool) (name : String)
    (value : Bool) (c : Coil) (h : cfg.get_coil name = some c)
    (hf : fail (.writeCoil c.address value) = true) :
    write_coil cfg fail name value =
      { result := .error .modbusClientError, ops := [ModbusOp.writeCoil c.address value],
        published := [.transport] } := by
  simp [write_coil, h, hf]

/-- `write_coils` with no coil configured. -/
theorem write_coils_of_none (cfg : Configuration) (fail : ModbusOp → Bool) (name : String)
    (value : List Bool) (h : cfg.get_coil name = none) :
    write_coils cfg fail name value = { result := .ok 0, ops := [], published := [] } := by
  simp [write_coils, h]

/-- `write_coils` with a configured coil and a healthy transport. -/
theorem write_coils_of_some (cfg : Configuration) (fail : ModbusOp → Bool) (name : String)
    (value : List Bool) (c : Coil) (h : cfg.get_coil name = some c)
    (hf : fail (.writeCoils c.address value) = false) :
    write_coils cfg fail name value =
      { result := .ok value.length, ops := [ModbusOp.writeCoils c.address value],
        published := [] } := by
  simp [write_coils, h, hf]

/-- `write_coils` with a configured coil and a failing transport. -/
theorem write_coils_of_some_fail (cfg : Configuration) (fail : ModbusOp → Bool) (name : String)
    (value : List Bool) (c : Coil) (h : cfg.get_coil name = some c)
    (hf : fail (.writeCoils c.address value) = true) :
    write_coils cfg fail name value =
      { result := .error .modbusClientError, ops := [ModbusOp.writeCoils c.address value],
        published := [.transport] } := by
  simp [write_coils, h, hf]

/-- `write_register` with no register configured. -/
theorem write_register_of_none (cfg : Configuration) (fail : ModbusOp → Bool) (name : String)
    (value : PyValue) (h : cfg.get_holding_register name = none) :
    write_register cfg fail name value = { result := .ok 0, ops := [], published := [] } := by
  simp [write_register, h]

/-- `write_register` with a configured register, a buildable payload and
a healthy transport. -/
theorem write_register_of_some (cfg : Configuration) (fail : ModbusOp → Bool) (name : String)
    (value : PyValue) (r : HoldingRegister) (payload : List Nat)
    (h : cfg.get_holding_register name = some r)
    (hp : build_register_payload r value = some payload)
    (hf : fail (.writeRegisters r.address payload) = false) :
    write_register cfg fail name value =
      { result := .ok 1, ops := [ModbusOp.writeRegisters r.address payload],
        published := [] } := by
  simp [write_register, h, hp, hf]

/-- `write_register` with a configured register, a buildable payload and
a failing transport. -/
theorem write_register_of_some_fail (cfg : Configuration) (fail : ModbusOp → Bool)
    (name : String) (value : PyValue) (r : HoldingRegister) (payload : List Nat)
    (h : cfg.get_holding_register name = some r)
    (hp : build_register_payload r value = some payload)
    (hf : fail (.writeRegisters r.address payload) = true) :
    write_register cfg fail name value =
      { result := .error .modbusClientError, ops := [ModbusOp.writeRegisters r.address payload],
        published := [.transport] } := by
  simp [write_register, h, hp, hf]

/-- `write_register` with a configured register whose payload does not
build: publish the build failure and raise `InvalidMessageError`. -/
theorem write_register_of_build_failure (cfg : Configuration) (fail : ModbusOp → Bool)
    (name : String) (value : PyValue) (r : HoldingRegister)
    (h : cfg.get_holding_register name = some r)
    (hp : build_register_payload r value = none) :
    write_register cfg fail name value =
      { result := .error .invalidMessageError, ops := [],
        published := [.invalidMessage] } := by
  simp [write_register, h, hp]

/-- Claim C5: `write_coil(name, value)` returns 0 with no transport
write and no exception when no coil target is configured under `name`;
with a configured coil target it issues exactly one discrete write at
the target's base address carrying exactly that boolean value and
returns 1 (the successful-transport case; transport failure is the
subject of the dedicated transport-failure claim). -/
theorem write_coil_count_spec (cfg : Configuration) (fail : ModbusOp → Bool) (name : String)
    (value : Bool) :
    (cfg.get_coil name = none →
      write_coil cfg fail name value = { result := .ok 0, ops := [], published := [] }) ∧
    (∀ c, cfg.get_coil name = some c →
      fail (.writeCoil c.address value) = false →
      write_coil cfg fail name value =
        { result := .ok 1, ops := [ModbusOp.writeCoil c.address value], published := [] }) :=
  ⟨fun h => write_coil_of_none cfg fail name value h,
   fun c h hf => write_coil_of_some cfg fail name value c h hf⟩

/-- Witness for claim C5, at the spec's own example: a coil `pump_1`
configured at base address 10, written with `true`, and an unconfigured
name returning 0. -/
theorem write_coil_count_spec_witness :
    write_coil { coils := [{ name := "pump_1", address := 10 }], holding_registers := [] }
        (fun _ => false) "pump_1" true =
      { result := .ok 1, ops := [ModbusOp.writeCoil 10 true], published := [] } ∧
    write_coil { coils := [{ name := "pump_1", address := 10 }], holding_registers := [] }
        (fun _ => false) "other" true =
      { result := .ok 0, ops := [], published := [] } :=
  ⟨(write_coil_count_spec _ _ _ _).2 { name := "pump_1", address := 10 } (by decide) rfl,
   (write_coil_count_spec _ _ _ _).1 (by decide)⟩

/-- Claim C6: `write_register(name, value)` returns 0 when no register
target is configured under `name`; with a configured register it builds
the word sequence through the payload codec and issues exactly one
multi-register write at the target's base address carrying exactly that
word sequence, returning 1 on success. -/
theorem write_register_count_spec (cfg : Configuration) (fail : ModbusOp → Bool)
    (name : String) (value : PyValue) :
    (cfg.get_holding_register name = none →
      write_register cfg fail name value =
        { result := .ok 0, ops := [], published := [] }) ∧
    (∀ r payload, cfg.get_holding_register name = some r →
      build_register_payload r value = some payload →
      fail (.writeRegisters r.address payload) = false →
      write_register cfg fail name value =
        { result := .ok 1, ops := [ModbusOp.writeRegisters r.address payload],
          published := [] }) :=
  ⟨fun h => write_register_of_none cfg fail name value h,
   fun r payload h hp hf => write_register_of_some cfg fail name value r payload h hp hf⟩

/-- Witness for claim C6: a register `setpoint` configured at base
address 20 as big-endian/natural int16, written with the integer 5
(payload `[0x0005]`), and an unconfigured name returning 0. -/
theorem write_register_count_spec_witness :
    write_register
        { coils := [],
          holding_registers := [{ name := "setpoint", address := 20, data_type := .int16,
                                  memory_order := { byte_order := .big,
                                                    word_order := .natural } }] }
        (fun _ => false) "setpoint" (.int 5) =
      { result := .ok 1, ops := [ModbusOp.writeRegisters 20 [5]], published := [] } ∧
    write_register
        { coils := [],
          holding_registers := [{ name := "setpoint", address := 20, data_type := .int16,
                                  memory_order := { byte_order := .big,
                                                    word_order := .natural } }] }
        (fun _ => false) "other" (.int 5) =
      { result := .ok 0, ops := [], published := [] } :=
  ⟨(write_register_count_spec _ _ _ _).2
      { name := "setpoint", address := 20, data_type := .int16,
        memory_order := { byte_order := .big, word_order := .natural } }
      [5] (by decide) (by decide) rfl,
   (write_register_count_spec _ _ _ _).1 (by decide)⟩

/-- Claim C7: a transport failure (`ModbusException`) during any of the
three write operations is caught at the write boundary, published to
the error reporter as a transport failure, and re-raised as
`ModbusClientError`; the operation list shows exactly the one attempted
write — nothing is retried or requeued. -/
theorem transport_failure_spec (cfg : Configuration) (fail : ModbusOp → Bool)
    (name : String) :
    (∀ c (value : Bool), cfg.get_coil name = some c →
      fail (.writeCoil c.address value) = true →
      write_coil cfg fail name value =
        { result := .error .modbusClientError, ops := [ModbusOp.writeCoil c.address value],
          published := [.transport] }) ∧
    (∀ c (value : List Bool), cfg.get_coil name = some c →
      fail (.writeCoils c.address value) = true →
      write_coils cfg fail name value =
        { result := .error .modbusClientError, ops := [ModbusOp.writeCoils c.address value],
          published := [.transport] }) ∧
    (∀ r (value : PyValue) payload, cfg.get_holding_register name = some r →
      build_register_payload r value = some payload →
      fail (.writeRegisters r.address payload) = true →
      write_register cfg fail name value =
        { result := .error .modbusClientError,
          ops := [ModbusOp.writeRegisters r.address payload],
          published := [.transport] }) :=
  ⟨fun c value h hf => write_coil_of_some_fail cfg fail name value c h hf,
   fun c value h hf => write_coils_of_some_fail cfg fail name value c h hf,
   fun r value payload h hp hf =>
     write_register_of_some_fail cfg fail name value r payload h hp hf⟩

/-- Witness for claim C7: with an always-failing transport, the coil,
multi-coil and register writes of a dual-configured name each raise
`ModbusClientError` after publishing one transport failure. -/
theorem transport_failure_spec_witness :
    write_coil
        { coils := [{ name := "both", address := 3 }],
          holding_registers := [{ name := "both", address := 7, data_type := .uint16,
                                  memory_order := { byte_order := .big,
                                                    word_order := .natural } }] }
        (fun _ => true) "both" true =
      { result := .error .modbusClientError, ops := [ModbusOp.writeCoil 3 true],
        published := [.transport] } ∧
    write_coils
        { coils := [{ name := "both", address := 3 }],
          holding_registers := [{ name := "both", address := 7, data_type := .uint16,
                                  memory_order := { byte_order := .big,
                                                    word_order := .natural } }] }
        (fun _ => true) "both" [true, false] =
      { result := .error .modbusClientError, ops := [ModbusOp.writeCoils 3 [true, false]],
        published := [.transport] } ∧
    write_register
        { coils := [{ name := "both", address := 3 }],
          holding_registers := [{ name := "both", address := 7, data_type := .uint16,
                                  memory_order := { byte_order := .big,
                                                    word_order := .natural } }] }
        (fun _ => true) "both" (.int 40000) =
      { result := .error .modbusClientError, ops := [ModbusOp.writeRegisters 7 [40000]],
        published := [.transport] } :=
  ⟨(transport_failure_spec _ _ _).1 { name := "both", address := 3 } true (by decide) rfl,
   (transport_failure_spec _ _ _).2.1 { name := "both", address := 3 } [true, false]
     (by decide) rfl,
   (transport_failure_spec _ _ _).2.2
     { name := "both", address := 7, data_type := .uint16,
       memory_order := { byte_order := .big, word_order := .natural } }
     (.int 40000) [40000] (by decide) (by decide) rfl⟩

/-- Claim C10: `write_coils(name, [])` for a configured coil returns 0
— the same count as for an unconfigured name — while still issuing one
transport write carrying zero coils, so the return value cannot tell an
empty write apart from an unconfigured name. -/
theorem write_coils_empty_spec (cfg : Configuration) (fail : ModbusOp → Bool)
    (name : String) :
    (∀ c, cfg.get_coil name = some c →
      fail (.writeCoils c.address []) = false →
      write_coils cfg fail name [] =
        { result := .ok 0, ops := [ModbusOp.writeCoils c.address []], published := [] }) ∧
    (cfg.get_coil name = none →
      write_coils cfg fail name [] = { result := .ok 0, ops := [], published := [] }) :=
  ⟨fun c h hf => write_coils_of_some cfg fail name [] c h hf,
   fun h => write_coils_of_none cfg fail name [] h⟩

/-- Witness for claim C10: the configured coil `pump_1` written with the
empty list returns 0 yet issues one zero-coil transport write, while the
unconfigured name `ghost` returns 0 with no transport write. -/
theorem write_coils_empty_spec_witness :
    write_coils { coils := [{ name := "pump_1", address := 10 }], holding_registers := [] }
        (fun _ => false) "pump_1" [] =
      { result := .ok 0, ops := [ModbusOp.writeCoils 10 []], published := [] } ∧
    write_coils { coils := [{ name := "pump_1", address := 10 }], holding_registers := [] }
        (fun _ => false) "ghost" [] =
      { result := .ok 0, ops := [], published := [] } :=
  ⟨(write_coils_empty_spec _ _ _).1 { name := "pump_1", address := 10 } (by decide) rfl,
   (write_coils_empty_spec _ _ _).2 (by decide)⟩

/-- With a configured coil, `write_coil` either counts 1 or raises the
transport error — it never returns 0. -/
theorem write_coil_result_of_some (cfg : Configuration) (fail : ModbusOp → Bool)
    (name : String) (value : Bool) (c : Coil) (hc : cfg.get_coil name = some c) :
    (write_coil cfg fail name value).result = .ok 1 ∨
    (write_coil cfg fail name value).result = .error .modbusClientError := by
  cases hf : fail (.writeCoil c.address value)
  · simp [write_coil_of_some cfg fail name value c hc hf]
  · simp [write_coil_of_some_fail cfg fail name value c hc hf]

/-- With a configured register, `write_register` either counts 1 or
raises — it never returns 0. -/
theorem write_register_result_of_some (cfg : Configuration) (fail : ModbusOp → Bool)
    (name : String) (value : PyValue) (r : HoldingRegister)
    (hr : cfg.get_holding_register name = some r) :
    (write_register cfg fail name value).result = .ok 1 ∨
    (write_register cfg fail name value).result = .error .modbusClientError ∨
    (write_register cfg fail name value).result = .error .invalidMessageError := by
  rcases hp : build_register_payload r value with _ | p
  · simp [write_register_of_build_failure cfg fail name value r hr hp]
  · cases hf : fail (.writeRegisters r.address p)
    · simp [write_register_of_some cfg fail name value r p hr hp hf]
    · simp [write_register_of_some_fail cfg fail name value r p hr hp hf]

/-- A name with a configured coil never makes `write_command` raise
`UnknownCommandError`. -/
theorem write_command_not_unknown_of_coil (cfg : Configuration) (fail : ModbusOp → Bool)
    (name : String) (value : PyValue) (c : Coil) (hc : cfg.get_coil name = some c) :
    ∀ s, (write_command cfg fail name value).result ≠ .error (.unknownCommandError s) := by
  intro s
  rcases write_coil_result_of_some cfg fail name value.toBool c hc with h1 | h1
  · rcases hr : cfg.get_holding_register name with _ | r
    · simp [write_command, hc, hr, h1]
    · rcases write_register_result_of_some cfg fail name value r hr with h2 | h2 | h2 <;>
        simp [write_command, hc, hr, h1, h2]
  · simp [write_command, hc, h1]

/-- A name with a configured holding register never makes
`write_command` raise `UnknownCommandError`. -/
theorem write_command_not_unknown_of_register (cfg : Configuration) (fail : ModbusOp → Bool)
    (name : String) (value : PyValue) (r : HoldingRegister)
    (hr : cfg.get_holding_register name = some r) :
    ∀ s, (write_command cfg fail name value).result ≠ .error (.unknownCommandError s) := by
  intro s
  rcases hc : cfg.get_coil name with _ | c
  · rcases write_register_result_of_some cfg fail name value r hr with h2 | h2 | h2 <;>
      simp [write_command, hc, hr, h2]
  · rcases write_coil_result_of_some cfg fail name value.toBool c hc with h1 | h1
    · rcases write_register_result_of_some cfg fail name value r hr with h2 | h2 | h2 <;>
        simp [write_command, hc, hr, h1, h2]
    · simp [write_command, hc, h1]

/-- The possible results of `write_command`: `None` on success, or one
of the three raised exception kinds. -/
theorem write_command_result_cases (cfg : Configuration) (fail : ModbusOp → Bool)
    (name : String) (value : PyValue) :
    (write_command cfg fail name value).result = .ok none ∨
    (write_command cfg fail name value).result = .error (.unknownCommandError name) ∨
    (write_command cfg fail name value).result = .error .modbusClientError ∨
    (write_command cfg fail name value).result = .error .invalidMessageError := by
  rcases hc : cfg.get_coil name with _ | c <;>
    rcases hr : cfg.get_holding_register name with _ | r
  · simp [write_command, hc, hr]
  · rcases write_register_result_of_some cfg fail name value r hr with h | h | h <;>
      simp [write_command, hc, hr, h]
  · rcases write_coil_result_of_some cfg fail name value.toBool c hc with h | h <;>
      simp [write_command, hc, hr, h]
  · rcases write_coil_result_of_some cfg fail name value.toBool c hc with h1 | h1
    · rcases write_register_result_of_some cfg fail name value r hr with h2 | h2 | h2 <;>
        simp [write_command, hc, hr, h1, h2]
    · simp [write_command, hc, h1]

/-- Claim C1: `write_command(name, value)` attempts the coil write (with
the value coerced to boolean) and the register write and sums the
counts; it raises `UnknownCommandError` exactly when the name matches
neither a coil nor a register, and on that no-match failure the whole
call reduces to exactly one published `UnknownCommand` error event, no
transport write, and the raise. -/
theorem write_command_unknown_iff (cfg : Configuration) (fail : ModbusOp → Bool)
    (name : String) (value : PyValue) :
    ((write_command cfg fail name value).result = .error (.unknownCommandError name) ↔
      cfg.get_coil name = none ∧ cfg.get_holding_register name = none) ∧
    (cfg.get_coil name = none → cfg.get_holding_register name = none →
      write_command cfg fail name value =
        { result := .error (.unknownCommandError name), ops := [],
          published := [Category.unknownCommand] }) := by
  constructor
  · constructor
    · intro h
      rcases hc : cfg.get_coil name with _ | c
      · rcases hr : cfg.get_holding_register name with _ | r
        · exact ⟨rfl, rfl⟩
        · exact absurd h (write_command_not_unknown_of_register cfg fail name value r hr name)
      · exact absurd h (write_command_not_unknown_of_coil cfg fail name value c hc name)
    · rintro ⟨hc, hr⟩
      simp [write_command, hc, hr]
  · intro hc hr
    simp [write_command, hc, hr]

/-- Witness for claim C1, at the spec's own example: with an empty
device map, `write_command("no_such_target", 5)` raises
`UnknownCommandError` after publishing exactly one `UnknownCommand`
error event and issuing no transport write. -/
theorem write_command_unknown_iff_witness :
    write_command { coils := [], holding_registers := [] } (fun _ => false)
        "no_such_target" (.int 5) =
      { result := .error (.unknownCommandError "no_such_target"), ops := [],
        published := [Category.unknownCommand] } :=
  (write_command_unknown_iff _ _ _ _).2 rfl rfl

/-- Claim C3: a name configured simultaneously as a coil and as a
register makes `write_command` perform both writes, both counting as
sent, so `UnknownCommandError` is never raised; when both writes
succeed the call performs exactly the coil write followed by the
register write. -/
theorem write_command_dual_dispatch (cfg : Configuration) (fail : ModbusOp → Bool)
    (name : String) (value : PyValue) (c : Coil) (r : HoldingRegister)
    (hc : cfg.get_coil name = some c) (hr : cfg.get_holding_register name = some r) :
    (∀ s, (write_command cfg fail name value).result ≠ .error (.unknownCommandError s)) ∧
    (∀ payload, build_register_payload r value = some payload →
      fail (.writeCoil c.address value.toBool) = false →
      fail (.writeRegisters r.address payload) = false →
      write_command cfg fail name value =
        { result := .ok none,
          ops := [ModbusOp.writeCoil c.address value.toBool,
                  ModbusOp.writeRegisters r.address payload],
          published := [] }) := by
  constructor
  · exact write_command_not_unknown_of_coil cfg fail name value c hc
  · intro payload hp hfc hfr
    simp [write_command, hc, hr, write_coil_of_some cfg fail name value.toBool c hc hfc,
      write_register_of_some cfg fail name value r payload hr hp hfr]

/-- Witness for claim C3: the name `both` configured as a coil at
address 3 and a uint16 register at address 7, written with the integer
1: both writes are issued and no exception is raised. -/
theorem write_command_dual_dispatch_witness :
    write_command
        { coils := [{ name := "both", address := 3 }],
          holding_registers := [{ name := "both", address := 7, data_type := .uint16,
                                  memory_order := { byte_order := .big,
                                                    word_order := .natural } }] }
        (fun _ => false) "both" (.int 1) =
      { result := .ok none,
        ops := [ModbusOp.writeCoil 3 true, ModbusOp.writeRegisters 7 [1]],
        published := [] } :=
  (write_command_dual_dispatch _ _ _ _ { name := "both", address := 3 }
      { name := "both", address := 7, data_type := .uint16,
        memory_order := { byte_order := .big, word_order := .natural } }
      (by decide) (by decide)).2 [1] (by decide) rfl rfl

/-- Claim C9: `write_command` never returns its internal `sent` count
(or any value): the Python function has no return statement, so every
non-raising execution returns `None`, and success is observable only as
the absence of a raised exception. -/
theorem write_command_returns_nothing (cfg : Configuration) (fail : ModbusOp → Bool)
    (name : String) (value : PyValue) :
    (write_command cfg fail name value).result = .ok none ∨
    ∃ e, (write_command cfg fail name value).result = .error e := by
  rcases write_command_result_cases cfg fail name value with h | h | h | h
  · exact Or.inl h
  · exact Or.inr ⟨_, h⟩
  · exact Or.inr ⟨_, h⟩
  · exact Or.inr ⟨_, h⟩

/-- The batch loop on a batch whose prefix validates but whose next
item fails: every prefix action and the failing action are examined, in
order, and the loop stops with that item's exception — the items after
it are never reached. -/
theorem processItems_prefix_failure (cfg : Configuration) (pre : List CommandMessage)
    (m : CommandMessage) (post : List CommandMessage) (e : PyExc)
    (hpre : ∀ x ∈ pre, ∃ y, validate_transform cfg x = .ok y)
    (hm : validate_transform cfg m = .error e) :
    processItems cfg (pre ++ m :: post) =
      (pre.map (fun x => x.action) ++ [m.action], .error e) := by
  induction pre with
  | nil => simp [processItems, hm]
  | cons x xs ih =>
    obtain ⟨y, hy⟩ := hpre x (by simp)
    have h2 := ih (fun z hz => hpre z (by simp [hz]))
    simp [processItems, hy, h2]

/-- Claim C2: a well-formed inbound batch containing an item that fails
validation or transform dispatches nothing to the message callbacks —
items before the failing one, although already validated, are never
dispatched, and the examined actions stop exactly at the failing item,
so later items are never examined. -/
theorem batch_aborts_on_item_failure (cfg : Configuration) (cbs : List Callback)
    (pre : List CommandMessage) (m : CommandMessage) (post : List CommandMessage)
    (hpre : ∀ x ∈ pre, ∃ y, validate_transform cfg x = .ok y)
    (hm : ∃ e, validate_transform cfg m = .error e) :
    (on_message cfg cbs (.ok (pre ++ m :: post))).1.dispatched = [] ∧
    (on_message cfg cbs (.ok (pre ++ m :: post))).1.examined =
      pre.map (fun x => x.action) ++ [m.action] := by
  obtain ⟨e, he⟩ := hm
  have hp := processItems_prefix_failure cfg pre m post e hpre he
  cases e <;> simp [on_message, inner_body, hp]

/-- Witness for claim C2, at the spec's own example: the batch
`[{action: valid_coil, value: true}, {action: bogus, value: 1}]` with
`valid_coil` configured and `bogus` unconfigured dispatches zero
writes, and the items after `bogus` — here none — are not examined. -/
theorem batch_aborts_on_item_failure_witness :
    (on_message { coils := [{ name := "valid_coil", address := 2 }], holding_registers := [] }
        [fun _ => none]
        (.ok [{ action := "valid_coil", value := .bool true },
              { action := "bogus", value := .int 1 }])).1.dispatched = [] ∧
    (on_message { coils := [{ name := "valid_coil", address := 2 }], holding_registers := [] }
        [fun _ => none]
        (.ok [{ action := "valid_coil", value := .bool true },
              { action := "bogus", value := .int 1 }])).1.examined =
      ["valid_coil", "bogus"] := by
  have h := batch_aborts_on_item_failure
    { coils := [{ name := "valid_coil", address := 2 }], holding_registers := [] }
    [fun _ => none]
    [{ action := "valid_coil", value := .bool true }]
    { action := "bogus", value := .int 1 } []
    (by
      intro x hx
      simp only [List.mem_singleton] at hx
      subst hx
      exact ⟨{ action := "valid_coil", value := .bool true }, by decide⟩)
    ⟨.unknownCommandError "bogus", by decide⟩
  simpa using h

/-- Claim C8: with the error reporter modelled as never raising (it is
a pure publication-list append here, per §4.5), the message handler
lets no exception propagate: any exception escaping the categorized
handlers is absorbed by the outer boundary and reported as `Unhandled`,
while `InvalidMessageError` and `UnknownCommandError` from the batch
phase are already categorized by the inner handlers and do not reach
the outer boundary. -/
theorem on_message_never_raises (cfg : Configuration) (cbs : List Callback)
    (input : InboundParse) :
    (on_message cfg cbs input).2 = none ∧
    (∀ e, (inner_body cfg cbs input).2 = some e →
      (on_message cfg cbs input).1.published =
        (inner_body cfg cbs input).1.published ++ [Category.unhandled]) ∧
    (∀ items, input = .ok items →
      ((processItems cfg items).2 = .error .invalidMessageError →
        (inner_body cfg cbs input).2 = none ∧
        (inner_body cfg cbs input).1.published = [Category.invalidMessage]) ∧
      (∀ s, (processItems cfg items).2 = .error (.unknownCommandError s) →
        (inner_body cfg cbs input).2 = none ∧
        (inner_body cfg cbs input).1.published = [Category.unknownCommand])) := by
  refine ⟨?_, ?_, ?_⟩
  · cases h : (inner_body cfg cbs input).2 <;> simp [on_message, h]
  · intro e he
    simp [on_message, he]
  · rintro items rfl
    constructor
    · intro hpi
      simp [inner_body, hpi]
    · intro s hpi
      simp [inner_body, hpi]

/-- Witness for claim C8: a decode failure is absorbed and reported as
`Unhandled`, and a batch whose only item names an unconfigured command
is absorbed and reported as `UnknownCommand` — in both cases nothing
propagates. -/
theorem on_message_never_raises_witness :
    (on_message { coils := [], holding_registers := [] } [] (.failure "boom")).2 = none ∧
    (on_message { coils := [], holding_registers := [] } [] (.failure "boom")).1.published =
      [Category.unhandled] ∧
    (inner_body { coils := [], holding_registers := [] } []
      (.ok [{ action := "ghost", value := .int 1 }])).2 = none ∧
    (inner_body { coils := [], holding_registers := [] } []
      (.ok [{ action := "ghost", value := .int 1 }])).1.published =
      [Category.unknownCommand] := by
  refine ⟨(on_message_never_raises _ _ _).1, ?_, ?_, ?_⟩
  · have h := (on_message_never_raises { coils := [], holding_registers := [] } []
      (.failure "boom")).2.1 (.otherError "boom") rfl
    simpa using h
  · exact ((on_message_never_raises { coils := [], holding_registers := [] } []
      (.ok [{ action := "ghost", value := .int 1 }])).2.2 _ rfl).2 "ghost" (by decide) |>.1
  · exact ((on_message_never_raises { coils := [], holding_registers := [] } []
      (.ok [{ action := "ghost", value := .int 1 }])).2.2 _ rfl).2 "ghost" (by decide) |>.2

/-- Claim C4: the payload codec follows §4.3's four-step algorithm (the
definition of `encode` is that algorithm), and on the worked examples:
int16 big-endian/natural of −1 is the single word `0xFFFF`; float32
big-endian/natural of 1.0 is `[0x3F80, 0x0000]`; the same float32 call
with swapped word order yields the reversed word sequence
`[0x0000, 0x3F80]` — and in general swapping the word order of a
float32 encoding reverses its word sequence. -/
theorem encode_worked_examples :
    encode .int16 { byte_order := .big, word_order := .natural } (.int (-1)) =
      some [0xFFFF] ∧
    encode .float32 { byte_order := .big, word_order := .natural } (.float 1 0) =
      some [0x3F80, 0x0000] ∧
    encode .float32 { byte_order := .big, word_order := .swapped } (.float 1 0) =
      some [0x0000, 0x3F80] ∧
    ∀ (bo : ByteOrder) (v : PyValue),
      encode .float32 { byte_order := bo, word_order := .swapped } v =
        (encode .float32 { byte_order := bo, word_order := .natural } v).map
          List.reverse := by
  refine ⟨by decide, by decide, by decide, ?_⟩
  intro bo v
  cases h : natRepr .float32 v with
  | none => simp [encode, h]
  | some wx => simp [encode, h]
